import Mathlib

/-!
A verification development for the ModelGuard mesh-validation core
(src/backend/validator.py and src/backend/models.py).

The pipeline is embedded shallowly:
* geometric quantities are exact rationals; every comparison the source
  makes against a distance or an area (which the source computes with a
  square root) is embedded in squared form, so that all predicates are
  decidable; theorems connect the squared form back to the real
  square-root formulation where a claim speaks about areas or distances;
* calls into the geometry library (trimesh) are an abstract adapter whose
  operations return Except values: an error value models a raised Python
  exception, mirroring the try/except structure of the source;
* the surface-sampling call mesh.sample(1000) draws from the library
  random generator, so its per-run outcome is passed as an explicit
  function argument rather than being a fixed field of the adapter.
-/

/- The Batteries rational primitives are sealed against unfolding; the
concrete evaluations below re-open them for definitional reduction. -/
attribute [local semireducible] Rat.mul Rat.add Rat.sub Rat.inv Rat.ofScientific

/-- A 3D point or vector with exact rational coordinates. -/
structure Vec3 where
  x : ℚ
  y : ℚ
  z : ℚ
  deriving DecidableEq, Repr

def Vec3.sub (a b : Vec3) : Vec3 :=
  { x := a.x - b.x, y := a.y - b.y, z := a.z - b.z }

/-- Cross product of two vectors, as in numpy.cross. -/
def Vec3.cross (a b : Vec3) : Vec3 :=
  { x := a.y * b.z - a.z * b.y
    y := a.z * b.x - a.x * b.z
    z := a.x * b.y - a.y * b.x }

/-- Squared Euclidean norm; the source computes np.linalg.norm, which is
the square root of this quantity. -/
def Vec3.normSq (a : Vec3) : ℚ :=
  a.x * a.x + a.y * a.y + a.z * a.z

/-- Squared Euclidean distance between two points. -/
def distSq (a b : Vec3) : ℚ :=
  Vec3.normSq (Vec3.sub a b)

/-- Decidable form of sqrt dSq < t for a nonnegative dSq: true exactly
when t is positive and dSq < t * t.  Every strict comparison the source
makes between a Euclidean norm and a threshold is embedded through this
helper. -/
def sqrtLt (dSq t : ℚ) : Bool :=
  decide (0 < t ∧ dSq < t * t)

/-- The canonical in-memory triangle mesh: an ordered vertex list and an
ordered list of index triples (trimesh.Trimesh vertices and faces). -/
structure Mesh where
  vertices : List Vec3
  faces : List (Nat × Nat × Nat)
  deriving DecidableEq, Repr

/-- Vertex lookup mesh.vertices[i]; the zero vector stands for the
out-of-range case, which the face-index invariant rules out. -/
def Mesh.vert (m : Mesh) (i : Nat) : Vec3 :=
  m.vertices.getD i { x := 0, y := 0, z := 0 }

/-- Every face index is within range (the Mesh Model invariant). -/
def Mesh.validFaces (m : Mesh) : Prop :=
  ∀ f ∈ m.faces, f.1 < m.vertices.length ∧
    f.2.1 < m.vertices.length ∧ f.2.2 < m.vertices.length

/-- ValidationStatus from src/backend/models.py. -/
inductive ValidationStatus where
  | ALLOW
  | ALLOW_WITH_WARNINGS
  | BLOCK
  deriving DecidableEq, Repr

/-- ErrorCode from src/backend/models.py. -/
inductive ErrorCode where
  | NOT_WATERTIGHT
  | NON_MANIFOLD
  | SELF_INTERSECTING
  | THIN_WALL
  | DEGENERATE_FACES
  | DUPLICATE_VERTICES
  | INVERTED_NORMALS
  | MULTIPLE_COMPONENTS
  deriving DecidableEq, Repr

/-- Auxiliary positional data attached to a thin-wall region; the source
stores the point, the (square-root) thickness and the fixed string
"surface".  The thickness is kept here in squared form. -/
structure ThinRegion where
  point : Vec3
  thicknessSq : ℚ
  location : String := "surface"
  deriving DecidableEq, Repr

/-- ValidationIssue from src/backend/models.py.  The severity field
defaults to "error" exactly as in the pydantic model; the validator never
passes an explicit severity. -/
structure ValidationIssue where
  code : ErrorCode
  message : String
  severity : String := "error"
  count : Option Nat := none
  locations : Option (List ThinRegion) := none
  deriving DecidableEq, Repr

/-- MeshMetrics from src/backend/models.py. -/
structure MeshMetrics where
  triangles : Nat
  vertices : Nat
  components : Nat
  bbox_mm : List ℚ
  volume_mm3 : Option ℚ := none
  surface_area_mm2 : Option ℚ := none
  units : String := "mm"
  deriving DecidableEq, Repr

/-- ValidationReport from src/backend/models.py. -/
structure ValidationReport where
  model_id : String
  filename : String
  metrics : MeshMetrics
  errors : List ValidationIssue
  warnings : List ValidationIssue
  decision : ValidationStatus
  processing_time_ms : ℚ
  timestamp : String
  deriving DecidableEq, Repr

/-- The object returned by trimesh.load: a single geometry carrying
vertices, a scene (whose geometry values carrying vertices are listed),
or an object without a vertices attribute. -/
inductive LoadedFile where
  | single (m : Mesh)
  | scene (geoms : List Mesh)
  | noVertexData
  deriving Repr

/-- The geometry-library adapter (trimesh).  Each operation returns an
Except value: an error models a raised exception in the library call.
The split operation is observed by the source only through len(...), so
it is modelled as the component count. -/
structure GeometryAdapter where
  is_watertight : Mesh → Except String Bool
  is_winding_consistent : Mesh → Except String Bool
  bounds : Mesh → Except String (Option (Vec3 × Vec3))
  split : Mesh → Except String Nat
  volume : Mesh → Except String ℚ
  surface_area : Mesh → Except String ℚ
  open_boundaries : Mesh → Option Nat

/-- The per-run outcome of the library call mesh.sample(n), which draws
from the library random generator: a function of the mesh and the
requested count, fixed for one validation run. -/
def SampleFn : Type :=
  Mesh → Nat → Except String (List Vec3)

/-- Python max(geometries, key=len(vertices)): the first geometry of
maximal vertex count, none on an empty list. -/
def maxByVertices : List Mesh → Option Mesh
  | [] => none
  | g :: gs =>
      some (gs.foldl
        (fun best x =>
          if best.vertices.length < x.vertices.length then x else best) g)

/-- Body of MeshValidator._load_mesh before its except clause: scene
selection, the vertices attribute check and the empty-mesh check. -/
def load_inner (raw : Except String LoadedFile) : Except String Mesh :=
  match raw with
  | .error e => .error e
  | .ok f =>
      match f with
      | .noVertexData => .error "Empty or invalid mesh"
      | .scene gs =>
          match maxByVertices gs with
          | none => .error "No valid meshes found in scene"
          | some m =>
              if m.vertices.length = 0 then .error "Empty or invalid mesh"
              else .ok m
      | .single m =>
          if m.vertices.length = 0 then .error "Empty or invalid mesh"
          else .ok m

/-- MeshValidator._load_mesh: any failure is re-raised as
ValueError("Failed to load mesh: ..."). -/
def load_mesh (raw : Except String LoadedFile) : Except String Mesh :=
  match load_inner raw with
  | .ok m => .ok m
  | .error e => .error ("Failed to load mesh: " ++ e)

/-- MeshValidator._compute_metrics, body of the try block.  The source
subtracts bbox[1] - bbox[0]; when mesh.bounds is None that subtraction
raises, which the none branch models. -/
def compute_metrics_core (A : GeometryAdapter) (m : Mesh) :
    Except String MeshMetrics := do
  let triangles := m.faces.length
  let vertices := m.vertices.length
  let bnds ← A.bounds m
  let bbox ← match bnds with
    | none => Except.error "unsupported operand type for subtraction"
    | some b => pure [b.2.x - b.1.x, b.2.y - b.1.y, b.2.z - b.1.z]
  let wt ← A.is_watertight m
  let vol ← if wt then do
      let v ← A.volume m
      pure (some v)
    else pure none
  let area ← A.surface_area m
  let comps ← A.split m
  pure { triangles := triangles, vertices := vertices, components := comps,
         bbox_mm := bbox, volume_mm3 := vol, surface_area_mm2 := some area }

/-- MeshValidator._compute_metrics: on any exception the except clause
returns partial metrics with the counts preserved, component count 1 and
a zeroed bounding box. -/
def compute_metrics (A : GeometryAdapter) (m : Mesh) : MeshMetrics :=
  match compute_metrics_core A m with
  | .ok mm => mm
  | .error _ =>
      { triangles := m.faces.length, vertices := m.vertices.length,
        components := 1, bbox_mm := [0, 0, 0] }

/-- Squared norm of the cross product of the two edge vectors v1 - v0 and
v2 - v0 of a face; the face area in the source is half the square root of
this quantity. -/
def faceCrossSq (m : Mesh) (f : Nat × Nat × Nat) : ℚ :=
  let v0 := m.vert f.1
  let v1 := m.vert f.2.1
  let v2 := m.vert f.2.2
  Vec3.normSq (Vec3.cross (Vec3.sub v1 v0) (Vec3.sub v2 v0))

/-- The degenerate-face test area < 1e-10 of _find_degenerate_faces with
area = 0.5 * norm(cross), in squared form: norm(cross) < 2e-10. -/
def isDegenerateFace (m : Mesh) (f : Nat × Nat × Nat) : Bool :=
  sqrtLt (faceCrossSq m f) (2 / 10 ^ 10)

/-- MeshValidator._find_degenerate_faces: the indices of the faces whose
area is below 1e-10. -/
def find_degenerate_faces (m : Mesh) : List Nat :=
  (m.faces.enum.filter (fun p => isDegenerateFace m p.2)).map (fun p => p.1)

/-- The inner loop of _find_duplicate_vertices for index i: some later
vertex j lies within 1e-6 of vertex i. -/
def isDupAt (m : Mesh) (i : Nat) : Bool :=
  (List.range m.vertices.length).any
    (fun j => decide (i < j) && sqrtLt (distSq (m.vert i) (m.vert j)) (1 / 10 ^ 6))

/-- MeshValidator._find_duplicate_vertices: each index i is recorded at
most once (the source breaks out of the inner loop). -/
def find_duplicate_vertices (m : Mesh) : List Nat :=
  (List.range m.vertices.length).filter (isDupAt m)

/-- The distances-then-argmin step of _detect_thin_walls: the minimum
squared distance from p to a mesh vertex; none models the exception
np.argmin raises on an empty array. -/
def minDistSqTo (verts : List Vec3) (p : Vec3) : Option ℚ :=
  match verts.map (fun v => distSq v p) with
  | [] => none
  | d :: ds => some (ds.foldl min d)

/-- The sampling loop of _detect_thin_walls over the evaluated points.
A none from minDistSqTo models the raised exception: the surrounding
try/except keeps the regions accumulated so far and stops. -/
def thinLoop (verts : List Vec3) (t : ℚ) : List Vec3 → List ThinRegion
  | [] => []
  | p :: ps =>
      match minDistSqTo verts p with
      | none => []
      | some dSq =>
          (if sqrtLt dSq t then [{ point := p, thicknessSq := dSq }] else [])
            ++ thinLoop verts t ps

/-- MeshValidator._detect_thin_walls: sample 1000 surface points, examine
only the first 10, record a region for each examined point whose nearest
mesh vertex is closer than the threshold t; a sampling failure yields the
empty list. -/
def detect_thin_walls (sample : SampleFn) (t : ℚ) (m : Mesh) : List ThinRegion :=
  match sample m 1000 with
  | .error _ => []
  | .ok pts => thinLoop m.vertices t (pts.take 10)

/-- The watertightness issue of _run_validation_checks. -/
def watertightIssue (A : GeometryAdapter) (m : Mesh) : ValidationIssue :=
  { code := .NOT_WATERTIGHT
    message := "Mesh is not watertight (has open boundaries)"
    count := A.open_boundaries m }

/-- The winding-consistency issue of _run_validation_checks. -/
def nonManifoldIssue : ValidationIssue :=
  { code := .NON_MANIFOLD, message := "Mesh has non-manifold edges" }

/-- The self-intersection issue of _run_validation_checks. -/
def selfIntersectIssue : ValidationIssue :=
  { code := .SELF_INTERSECTING
    message := "Mesh appears to have self-intersections or is extremely thin" }

/-- The self-intersection proxy check of _run_validation_checks: guarded
by hasattr and a None test, wrapped in try/except (both modelled by the
error and none branches), it flags a bounding box whose extent is below
1e-6 on some axis. -/
def selfIntersectIssues (A : GeometryAdapter) (m : Mesh) : List ValidationIssue :=
  match A.bounds m with
  | .error _ => []
  | .ok none => []
  | .ok (some b) =>
      if decide (b.2.x - b.1.x < 1 / 10 ^ 6) || decide (b.2.y - b.1.y < 1 / 10 ^ 6)
          || decide (b.2.z - b.1.z < 1 / 10 ^ 6) then
        [selfIntersectIssue]
      else []

/-- The multiple-components issue of _run_validation_checks. -/
def componentsIssue (k : Nat) : ValidationIssue :=
  { code := .MULTIPLE_COMPONENTS
    message := "Mesh has " ++ toString k ++ " disconnected components"
    count := some k }

/-- The degenerate-faces issue of _run_validation_checks. -/
def degenerateIssue (m : Mesh) : ValidationIssue :=
  { code := .DEGENERATE_FACES
    message := "Found " ++ toString (find_degenerate_faces m).length ++ " degenerate faces"
    count := some (find_degenerate_faces m).length }

/-- The duplicate-vertices issue of _run_validation_checks. -/
def duplicatesIssue (m : Mesh) : ValidationIssue :=
  { code := .DUPLICATE_VERTICES
    message := "Found " ++ toString (find_duplicate_vertices m).length ++ " duplicate vertices"
    count := some (find_duplicate_vertices m).length }

/-- The thin-wall issue of _run_validation_checks. -/
def thinWallIssue (sample : SampleFn) (t : ℚ) (m : Mesh) : ValidationIssue :=
  { code := .THIN_WALL
    message := "Detected " ++ toString (detect_thin_walls sample t m).length
      ++ " regions with thickness < " ++ toString t ++ "mm"
    count := some (detect_thin_walls sample t m).length }

/-- The error list built by _run_validation_checks, in source append
order, given the values of the two adapter predicates. -/
def checksErrors (A : GeometryAdapter) (m : Mesh) (wt wc : Bool) :
    List ValidationIssue :=
  (if wt then [] else [watertightIssue A m]) ++
  (if wc then [] else [nonManifoldIssue]) ++
  selfIntersectIssues A m ++
  (if 0 < (find_degenerate_faces m).length then [degenerateIssue m] else [])

/-- The warning list built by _run_validation_checks, in source append
order, given the component count. -/
def checksWarnings (sample : SampleFn) (t : ℚ) (m : Mesh) (k : Nat) :
    List ValidationIssue :=
  (if 1 < k then [componentsIssue k] else []) ++
  (if 0 < (find_duplicate_vertices m).length then [duplicatesIssue m] else []) ++
  (if 0 < (detect_thin_walls sample t m).length then [thinWallIssue sample t m] else [])

/-- MeshValidator._run_validation_checks.  The watertightness,
winding-consistency and component-split library calls are not wrapped in
try/except in the source, so their failures propagate (in source raise
order); the self-intersection and thin-wall internals are wrapped and
swallowed inside selfIntersectIssues and detect_thin_walls. -/
def run_validation_checks (A : GeometryAdapter) (sample : SampleFn) (t : ℚ)
    (m : Mesh) : Except String (List ValidationIssue × List ValidationIssue) :=
  match A.is_watertight m with
  | .error e => .error e
  | .ok wt =>
      match A.is_winding_consistent m with
      | .error e => .error e
      | .ok wc =>
          match A.split m with
          | .error e => .error e
          | .ok k => .ok (checksErrors A m wt wc, checksWarnings sample t m k)

/-- MeshValidator._determine_decision. -/
def determine_decision (errors warnings : List ValidationIssue) :
    ValidationStatus :=
  if errors.any (fun e => e.severity == "error") then .BLOCK
  else if warnings.isEmpty then .ALLOW
  else .ALLOW_WITH_WARNINGS

/-- The try block of MeshValidator.validate_mesh: load, metrics, checks,
decision, report assembly.  The identifier, elapsed time and timestamp
come from external sources and are passed in. -/
def validate_core (A : GeometryAdapter) (sample : SampleFn) (t : ℚ)
    (raw : Except String LoadedFile) (model_id filename : String)
    (pt : ℚ) (ts : String) : Except String ValidationReport :=
  match load_mesh raw with
  | .error e => .error e
  | .ok mesh =>
      let metrics := compute_metrics A mesh
      match run_validation_checks A sample t mesh with
      | .error e => .error e
      | .ok (errors, warnings) =>
          .ok { model_id := model_id, filename := filename, metrics := metrics,
                errors := errors, warnings := warnings,
                decision := determine_decision errors warnings,
                processing_time_ms := pt, timestamp := ts }

/-- MeshValidator.validate_mesh: a total function; the except clause
packages any failure into a BLOCK report with zeroed metrics and one
DEGENERATE_FACES issue carrying the failure message. -/
def validate_mesh (A : GeometryAdapter) (sample : SampleFn) (t : ℚ)
    (raw : Except String LoadedFile) (model_id filename : String)
    (pt : ℚ) (ts : String) : ValidationReport :=
  match validate_core A sample t raw model_id filename pt ts with
  | .ok r => r
  | .error e =>
      { model_id := model_id, filename := filename,
        metrics := { triangles := 0, vertices := 0, components := 0,
                     bbox_mm := [0, 0, 0] },
        errors := [{ code := .DEGENERATE_FACES
                     message := "Failed to load mesh: " ++ e }],
        warnings := [],
        decision := .BLOCK,
        processing_time_ms := pt, timestamp := ts }

/-- The default thin_wall_threshold of MeshValidator.__init__ (0.5 mm). -/
def defaultThinWallThreshold : ℚ := 1 / 2

/-- The per-point predicate of the thin-wall loop: the nearest mesh
vertex of p lies closer than the threshold t (squared form); false when
there is no vertex at all. -/
def nearPoint (verts : List Vec3) (t : ℚ) (p : Vec3) : Bool :=
  match minDistSqTo verts p with
  | none => false
  | some d => sqrtLt d t

/-- The issues of a warning list that are not thin-wall issues.  Used to
state which part of a report is independent of the random surface
sample. -/
def nonThinWall (ws : List ValidationIssue) : List ValidationIssue :=
  ws.filter (fun i => !(decide (i.code = ErrorCode.THIN_WALL)))

/-- A watertight 10 x 10 x 10 cube: 8 vertices, 12 triangles. -/
def cubeMesh : Mesh :=
  { vertices := [⟨0,0,0⟩, ⟨10,0,0⟩, ⟨10,10,0⟩, ⟨0,10,0⟩,
                 ⟨0,0,10⟩, ⟨10,0,10⟩, ⟨10,10,10⟩, ⟨0,10,10⟩]
    faces := [(0,2,1), (0,3,2), (4,5,6), (4,6,7), (0,1,5), (0,5,4),
              (2,3,7), (2,7,6), (0,4,7), (0,7,3), (1,2,6), (1,6,5)] }

/-- An adapter answering honestly for cubeMesh: watertight, winding
consistent, one component, exact bounds. -/
def cubeAdapter : GeometryAdapter :=
  { is_watertight := fun _ => .ok true
    is_winding_consistent := fun _ => .ok true
    bounds := fun _ => .ok (some (⟨0,0,0⟩, ⟨10,10,10⟩))
    split := fun _ => .ok 1
    volume := fun _ => .ok 1000
    surface_area := fun _ => .ok 600
    open_boundaries := fun _ => none }

def rawCube : Except String LoadedFile := .ok (.single cubeMesh)

/-- A run whose surface sample happens to contain a cube corner: the
nearest vertex is at distance 0, below any positive threshold. -/
def sCorner : SampleFn := fun _ _ => .ok [⟨0, 0, 0⟩]

/-- A run whose surface sample happens to contain a face centre: the
nearest cube vertex is at distance sqrt 50, far above 0.5 mm. -/
def sFar : SampleFn := fun _ _ => .ok [⟨5, 5, 0⟩]

/-- A run whose sampling legitimately returns no points. -/
def sEmpty : SampleFn := fun _ _ => .ok []

/-- A run whose sampling call raises inside the library. -/
def sFail : SampleFn := fun _ _ => .error "sampling failed"

/-- The lateral shear (2e-6) of the flat test box. -/
def shearX : ℚ := 1 / 500000

/-- The thickness (1e-7) of the flat test box. -/
def thinZ : ℚ := 1 / 10 ^ 7

/-- A watertight sheared box of extent 10 x 10 x 1e-7, its top face
shifted 2e-6 along x: every pair of distinct vertices is more than 1e-6
apart and every triangle has area at least 5e-7, yet the bounding box is
thinner than 1e-6 along z. -/
def flatMesh : Mesh :=
  { vertices := [⟨0,0,0⟩, ⟨10,0,0⟩, ⟨10,10,0⟩, ⟨0,10,0⟩,
                 ⟨shearX,0,thinZ⟩, ⟨10+shearX,0,thinZ⟩,
                 ⟨10+shearX,10,thinZ⟩, ⟨shearX,10,thinZ⟩]
    faces := [(0,2,1), (0,3,2), (4,5,6), (4,6,7), (0,1,5), (0,5,4),
              (2,3,7), (2,7,6), (0,4,7), (0,7,3), (1,2,6), (1,6,5)] }

/-- An adapter answering honestly for flatMesh: the box is closed and
consistently wound, a single component, with exact bounds. -/
def flatAdapter : GeometryAdapter :=
  { is_watertight := fun _ => .ok true
    is_winding_consistent := fun _ => .ok true
    bounds := fun _ => .ok (some (⟨0,0,0⟩, ⟨10+shearX,10,thinZ⟩))
    split := fun _ => .ok 1
    volume := fun _ => .ok (100 * thinZ)
    surface_area := fun _ => .ok 200
    open_boundaries := fun _ => none }

def rawFlat : Except String LoadedFile := .ok (.single flatMesh)

/-- Two disjoint triangles, the second one tilted out of the plane of the
first so the joint bounding box is not degenerate. -/
def twoCompMesh : Mesh :=
  { vertices := [⟨0,0,0⟩, ⟨1,0,0⟩, ⟨0,1,0⟩, ⟨100,0,0⟩, ⟨101,0,0⟩, ⟨100,1,5⟩]
    faces := [(0,1,2), (3,4,5)] }

/-- An adapter answering honestly for twoCompMesh: two open shells, so
not watertight, two components, exact bounds. -/
def twoCompAdapter : GeometryAdapter :=
  { is_watertight := fun _ => .ok false
    is_winding_consistent := fun _ => .ok true
    bounds := fun _ => .ok (some (⟨0,0,0⟩, ⟨101,1,5⟩))
    split := fun _ => .ok 2
    volume := fun _ => .ok 0
    surface_area := fun _ => .ok 1
    open_boundaries := fun _ => none }

/-- A mesh whose first triangle is collinear (zero area) and whose
second is not. -/
def degMesh : Mesh :=
  { vertices := [⟨0,0,0⟩, ⟨1,0,0⟩, ⟨2,0,0⟩, ⟨0,1,3⟩]
    faces := [(0,1,2), (0,1,3)] }

/-- An adapter for degMesh: an open non-degenerate-extent mesh. -/
def degAdapter : GeometryAdapter :=
  { is_watertight := fun _ => .ok true
    is_winding_consistent := fun _ => .ok true
    bounds := fun _ => .ok (some (⟨0,0,0⟩, ⟨2,1,3⟩))
    split := fun _ => .ok 1
    volume := fun _ => .ok 0
    surface_area := fun _ => .ok 2
    open_boundaries := fun _ => none }

def rawDeg : Except String LoadedFile := .ok (.single degMesh)

/-- An adapter whose component-split library call raises, as when the
graph backend of the geometry library is unavailable. -/
def splitFailAdapter : GeometryAdapter :=
  { cubeAdapter with split := fun _ => .error "split failed" }

/-- An adapter whose bounds property raises. -/
def boundsFailAdapter : GeometryAdapter :=
  { cubeAdapter with bounds := fun _ => .error "bounds failed" }

lemma Vec3.normSq_nonneg (a : Vec3) : 0 ≤ a.normSq := by
  unfold Vec3.normSq
  have hx := mul_self_nonneg a.x
  have hy := mul_self_nonneg a.y
  have hz := mul_self_nonneg a.z
  linarith

lemma distSq_nonneg (a b : Vec3) : 0 ≤ distSq a b :=
  Vec3.normSq_nonneg _

lemma sqrtLt_iff_real (dSq t : ℚ) :
    sqrtLt dSq t = true ↔ Real.sqrt ((dSq : ℚ) : ℝ) < ((t : ℚ) : ℝ) := by
  unfold sqrtLt
  rw [decide_eq_true_eq]
  constructor
  · rintro ⟨ht, hlt⟩
    have ht2 : (0 : ℝ) < ((t : ℚ) : ℝ) := by exact_mod_cast ht
    rw [Real.sqrt_lt' ht2, sq]
    exact_mod_cast hlt
  · intro hlt
    have ht2 : (0 : ℝ) < ((t : ℚ) : ℝ) :=
      lt_of_le_of_lt (Real.sqrt_nonneg _) hlt
    have ht : 0 < t := by exact_mod_cast ht2
    refine ⟨ht, ?_⟩
    have h2 := (Real.sqrt_lt' ht2).1 hlt
    rw [sq] at h2
    exact_mod_cast h2

lemma enumFrom_filter_snd_length {α : Type} (q : α → Bool) :
    ∀ (n : Nat) (l : List α),
      ((List.enumFrom n l).filter (fun p => q p.2)).length = l.countP q := by
  intro n l
  induction l generalizing n with
  | nil => rfl
  | cons a l ih =>
      simp only [List.enumFrom, List.filter, List.countP_cons]
      cases hq : q a with
      | false => simp [hq, ih]
      | true => simp [hq, ih, List.length_cons]

lemma find_degenerate_faces_length (m : Mesh) :
    (find_degenerate_faces m).length = m.faces.countP (fun f => isDegenerateFace m f) := by
  unfold find_degenerate_faces
  rw [List.length_map]
  exact enumFrom_filter_snd_length _ 0 m.faces

lemma find_degenerate_faces_pos_iff (m : Mesh) :
    0 < (find_degenerate_faces m).length ↔
      ∃ f ∈ m.faces, isDegenerateFace m f = true := by
  rw [find_degenerate_faces_length]
  exact List.countP_pos_iff

lemma isDegenerateFace_iff_area (m : Mesh) (f : Nat × Nat × Nat) :
    isDegenerateFace m f = true ↔
      (1 / 2 : ℝ) * Real.sqrt ((faceCrossSq m f : ℚ) : ℝ) < 1 / 10 ^ 10 := by
  unfold isDegenerateFace
  rw [sqrtLt_iff_real]
  have hcast : (((2 : ℚ) / 10 ^ 10 : ℚ) : ℝ) = 2 / 10 ^ 10 := by
    push_cast
    ring
  rw [hcast]
  constructor
  · intro h
    linarith
  · intro h
    linarith

lemma run_checks_ok_iff (A : GeometryAdapter) (sample : SampleFn) (t : ℚ)
    (m : Mesh) (e w : List ValidationIssue) :
    run_validation_checks A sample t m = .ok (e, w) ↔
      ∃ wt wc k, A.is_watertight m = .ok wt ∧ A.is_winding_consistent m = .ok wc ∧
        A.split m = .ok k ∧ e = checksErrors A m wt wc ∧
        w = checksWarnings sample t m k := by
  unfold run_validation_checks
  cases hw : A.is_watertight m with
  | error s => simp
  | ok wt =>
      cases hc : A.is_winding_consistent m with
      | error s => simp
      | ok wc =>
          cases hs : A.split m with
          | error s => simp
          | ok k =>
              simp only [Except.ok.injEq, Prod.mk.injEq]
              constructor
              · rintro ⟨he, hw2⟩
                exact ⟨wt, wc, k, rfl, rfl, rfl, he.symm, hw2.symm⟩
              · rintro ⟨wt2, wc2, k2, h1, h2, h3, he, hw2⟩
                cases h1
                cases h2
                cases h3
                exact ⟨he.symm, hw2.symm⟩

lemma selfIntersectIssues_mem {A : GeometryAdapter} {m : Mesh}
    {i : ValidationIssue} (h : i ∈ selfIntersectIssues A m) :
    i = selfIntersectIssue := by
  unfold selfIntersectIssues at h
  rcases hb : A.bounds m with e | ob
  · rw [hb] at h
    simp at h
  · rw [hb] at h
    rcases ob with _ | b
    · simp at h
    · by_cases hc : (decide (b.2.x - b.1.x < 1 / 10 ^ 6)
          || decide (b.2.y - b.1.y < 1 / 10 ^ 6)
          || decide (b.2.z - b.1.z < 1 / 10 ^ 6)) = true
      · simp only [hc, if_true] at h
        simpa using h
      · simp only [hc, if_false, Bool.false_eq_true] at h
        simp at h

lemma mem_ite_singleton {c : Prop} [Decidable c] {i a : ValidationIssue}
    (h : i ∈ if c then [a] else ([] : List ValidationIssue)) : i = a := by
  by_cases hc : c
  · rw [if_pos hc] at h
    simpa using h
  · rw [if_neg hc] at h
    simp at h

lemma mem_ite_singleton_nil {c : Prop} [Decidable c] {i a : ValidationIssue}
    (h : i ∈ if c then ([] : List ValidationIssue) else [a]) : i = a := by
  by_cases hc : c
  · rw [if_pos hc] at h
    simp at h
  · rw [if_neg hc] at h
    simpa using h

lemma checksErrors_mem {A : GeometryAdapter} {m : Mesh} {wt wc : Bool}
    {i : ValidationIssue} (h : i ∈ checksErrors A m wt wc) :
    i = watertightIssue A m ∨ i = nonManifoldIssue ∨
      i = selfIntersectIssue ∨ i = degenerateIssue m := by
  unfold checksErrors at h
  rcases List.mem_append.1 h with h1 | h1
  · rcases List.mem_append.1 h1 with h2 | h2
    · rcases List.mem_append.1 h2 with h3 | h3
      · exact Or.inl (mem_ite_singleton_nil h3)
      · exact Or.inr (Or.inl (mem_ite_singleton_nil h3))
    · exact Or.inr (Or.inr (Or.inl (selfIntersectIssues_mem h2)))
  · exact Or.inr (Or.inr (Or.inr (mem_ite_singleton h1)))

lemma checksWarnings_mem {sample : SampleFn} {t : ℚ} {m : Mesh} {k : Nat}
    {i : ValidationIssue} (h : i ∈ checksWarnings sample t m k) :
    i = componentsIssue k ∨ i = duplicatesIssue m ∨
      i = thinWallIssue sample t m := by
  unfold checksWarnings at h
  rcases List.mem_append.1 h with h1 | h1
  · rcases List.mem_append.1 h1 with h2 | h2
    · exact Or.inl (mem_ite_singleton h2)
    · exact Or.inr (Or.inl (mem_ite_singleton h2))
  · exact Or.inr (Or.inr (mem_ite_singleton h1))

lemma checks_severity_eq {A : GeometryAdapter} {sample : SampleFn} {t : ℚ}
    {m : Mesh} {e w : List ValidationIssue}
    (h : run_validation_checks A sample t m = .ok (e, w)) :
    ∀ i ∈ e ++ w, i.severity = "error" := by
  obtain ⟨wt, wc, k, _, _, _, he, hw2⟩ := (run_checks_ok_iff A sample t m e w).1 h
  subst he
  subst hw2
  intro i hi
  rcases List.mem_append.1 hi with hm | hm
  · rcases checksErrors_mem hm with h1 | h1 | h1 | h1 <;> subst h1 <;> rfl
  · rcases checksWarnings_mem hm with h1 | h1 | h1 <;> subst h1 <;> rfl

lemma df_mem_checksErrors_iff (A : GeometryAdapter) (m : Mesh) (wt wc : Bool) :
    (∃ i ∈ checksErrors A m wt wc, i.code = ErrorCode.DEGENERATE_FACES) ↔
      0 < (find_degenerate_faces m).length := by
  constructor
  · rintro ⟨i, hi, hcode⟩
    unfold checksErrors at hi
    rcases List.mem_append.1 hi with h1 | h1
    · rcases List.mem_append.1 h1 with h2 | h2
      · rcases List.mem_append.1 h2 with h3 | h3
        · rw [mem_ite_singleton_nil h3] at hcode
          simp [watertightIssue] at hcode
        · rw [mem_ite_singleton_nil h3] at hcode
          simp [nonManifoldIssue] at hcode
      · rw [selfIntersectIssues_mem h2] at hcode
        simp [selfIntersectIssue] at hcode
    · by_cases hd : 0 < (find_degenerate_faces m).length
      · exact hd
      · rw [if_neg hd] at h1
        simp at h1
  · intro hd
    refine ⟨degenerateIssue m, ?_, rfl⟩
    unfold checksErrors
    refine List.mem_append.2 (Or.inr ?_)
    rw [if_pos hd]
    simp

lemma tw_mem_checksWarnings_iff (sample : SampleFn) (t : ℚ) (m : Mesh) (k : Nat) :
    (∃ i ∈ checksWarnings sample t m k, i.code = ErrorCode.THIN_WALL) ↔
      0 < (detect_thin_walls sample t m).length := by
  constructor
  · rintro ⟨i, hi, hcode⟩
    unfold checksWarnings at hi
    rcases List.mem_append.1 hi with h1 | h1
    · rcases List.mem_append.1 h1 with h2 | h2
      · rw [mem_ite_singleton h2] at hcode
        simp [componentsIssue] at hcode
      · rw [mem_ite_singleton h2] at hcode
        simp [duplicatesIssue] at hcode
    · by_cases hd : 0 < (detect_thin_walls sample t m).length
      · exact hd
      · rw [if_neg hd] at h1
        simp at h1
  · intro hd
    refine ⟨thinWallIssue sample t m, ?_, rfl⟩
    unfold checksWarnings
    refine List.mem_append.2 (Or.inr ?_)
    rw [if_pos hd]
    simp

lemma minDistSqTo_eq_none_iff (verts : List Vec3) (p : Vec3) :
    minDistSqTo verts p = none ↔ verts = [] := by
  unfold minDistSqTo
  cases verts <;> simp

lemma foldl_min_nonneg (ds : List ℚ) :
    ∀ d : ℚ, 0 ≤ d → (∀ x ∈ ds, 0 ≤ x) → 0 ≤ ds.foldl min d := by
  induction ds with
  | nil =>
      intro d hd _
      exact hd
  | cons a ds ih =>
      intro d hd hall
      simp only [List.foldl_cons]
      refine ih _ (le_min hd (hall a (by simp))) ?_
      intro x hx
      exact hall x (by simp [hx])

lemma minDistSqTo_nonneg {verts : List Vec3} {p : Vec3} {d : ℚ}
    (h : minDistSqTo verts p = some d) : 0 ≤ d := by
  unfold minDistSqTo at h
  cases verts with
  | nil => simp at h
  | cons v vs =>
      simp only [List.map_cons] at h
      injection h with h
      subst h
      refine foldl_min_nonneg _ _ (distSq_nonneg _ _) ?_
      intro x hx
      rcases List.mem_map.1 hx with ⟨u, _, hu⟩
      exact hu ▸ distSq_nonneg _ _

lemma thinLoop_length (verts : List Vec3) (t : ℚ) (hv : verts ≠ []) :
    ∀ ps : List Vec3,
      (thinLoop verts t ps).length = ps.countP (fun p => nearPoint verts t p) := by
  intro ps
  induction ps with
  | nil => rfl
  | cons p ps ih =>
      unfold thinLoop
      cases hm : minDistSqTo verts p with
      | none => exact absurd ((minDistSqTo_eq_none_iff verts p).1 hm) hv
      | some d =>
          rw [List.countP_cons]
          have hnp : nearPoint verts t p = sqrtLt d t := by
            unfold nearPoint
            rw [hm]
          cases hs : sqrtLt d t with
          | false => simp [hs, hnp, ih]
          | true => simp [hs, hnp, ih]

lemma detect_thin_walls_length {sample : SampleFn} {t : ℚ} {m : Mesh}
    {pts : List Vec3} (hv : m.vertices ≠ []) (hs : sample m 1000 = .ok pts) :
    (detect_thin_walls sample t m).length =
      (pts.take 10).countP (fun p => nearPoint m.vertices t p) := by
  unfold detect_thin_walls
  rw [hs]
  exact thinLoop_length m.vertices t hv (pts.take 10)

lemma load_mesh_ok_vertices {raw : Except String LoadedFile} {m : Mesh}
    (h : load_mesh raw = .ok m) : m.vertices ≠ [] := by
  unfold load_mesh load_inner at h
  rcases raw with e | f
  · simp at h
  · rcases f with m2 | gs | _
    · by_cases hz : m2.vertices.length = 0
      · simp [hz] at h
      · simp [hz] at h
        subst h
        intro hnil
        exact hz (by rw [hnil]; rfl)
    · rcases hgs : maxByVertices gs with _ | g
      · simp [hgs] at h
      · by_cases hz : g.vertices = []
        · simp [hgs, hz] at h
        · simp [hgs, hz] at h
          subst h
          exact hz
    · simp at h

lemma nonThinWall_checksWarnings (sample : SampleFn) (t : ℚ) (m : Mesh) (k : Nat) :
    nonThinWall (checksWarnings sample t m k) =
      (if 1 < k then [componentsIssue k] else []) ++
        (if 0 < (find_duplicate_vertices m).length then [duplicatesIssue m] else []) := by
  unfold nonThinWall checksWarnings
  rw [List.filter_append, List.filter_append]
  have h1 : ∀ c : Prop, ∀ inst : Decidable c,
      (if c then [componentsIssue k] else ([] : List ValidationIssue)).filter
          (fun i => !(decide (i.code = ErrorCode.THIN_WALL)))
        = (if c then [componentsIssue k] else []) := by
    intro c inst
    by_cases hc : c
    · rw [if_pos hc]
      rfl
    · rw [if_neg hc]
      rfl
  have h2 : ∀ c : Prop, ∀ inst : Decidable c,
      (if c then [duplicatesIssue m] else ([] : List ValidationIssue)).filter
          (fun i => !(decide (i.code = ErrorCode.THIN_WALL)))
        = (if c then [duplicatesIssue m] else []) := by
    intro c inst
    by_cases hc : c
    · rw [if_pos hc]
      rfl
    · rw [if_neg hc]
      rfl
  have h3 :
      (if 0 < (detect_thin_walls sample t m).length
          then [thinWallIssue sample t m] else ([] : List ValidationIssue)).filter
          (fun i => !(decide (i.code = ErrorCode.THIN_WALL)))
        = [] := by
    by_cases hc : 0 < (detect_thin_walls sample t m).length
    · rw [if_pos hc]
      rfl
    · rw [if_neg hc]
      rfl
  rw [h1, h2, h3, List.append_nil]

lemma perm_any_eq {l1 l2 : List ValidationIssue}
    (h : l1.Perm l2) (p : ValidationIssue → Bool) : l1.any p = l2.any p := by
  rw [Bool.eq_iff_iff, List.any_eq_true, List.any_eq_true]
  constructor
  · rintro ⟨x, hx, hp⟩
    exact ⟨x, h.mem_iff.1 hx, hp⟩
  · rintro ⟨x, hx, hp⟩
    exact ⟨x, h.mem_iff.2 hx, hp⟩

lemma perm_isEmpty_eq {l1 l2 : List ValidationIssue}
    (h : l1.Perm l2) : l1.isEmpty = l2.isEmpty := by
  cases l1 with
  | nil =>
      have : l2 = [] := h.symm.eq_nil
      rw [this]
  | cons a l =>
      cases l2 with
      | nil =>
          exact absurd h.eq_nil (by simp)
      | cons b l3 => rfl

lemma find_duplicate_vertices_eq_nil (m : Mesh)
    (h : ∀ i j, i < m.vertices.length → j < m.vertices.length → i ≠ j →
        ¬ (distSq (m.vert i) (m.vert j) < 1 / 10 ^ 12)) :
    find_duplicate_vertices m = [] := by
  unfold find_duplicate_vertices
  rw [List.filter_eq_nil_iff]
  intro i hi
  rw [List.mem_range] at hi
  unfold isDupAt sqrtLt
  rw [Bool.not_eq_true, List.any_eq_false]
  intro j hj
  rw [List.mem_range] at hj
  rw [Bool.not_eq_true, Bool.and_eq_false_iff]
  by_cases hij : i < j
  · refine Or.inr ?_
    rw [decide_eq_false_iff_not]
    rintro ⟨_, hlt⟩
    refine h i j (lt_trans hij hj) hj (Nat.ne_of_lt hij) ?_
    have : (1 : ℚ) / 10 ^ 6 * (1 / 10 ^ 6) = 1 / 10 ^ 12 := by norm_num
    rw [← this]
    exact hlt
  · exact Or.inl (by rw [decide_eq_false_iff_not]; exact hij)

lemma find_degenerate_faces_eq_nil (m : Mesh)
    (h : ∀ f ∈ m.faces, ¬ (faceCrossSq m f < 4 / 10 ^ 20)) :
    find_degenerate_faces m = [] := by
  have hlen : (find_degenerate_faces m).length = 0 := by
    rw [find_degenerate_faces_length, List.countP_eq_zero]
    intro f hf
    unfold isDegenerateFace sqrtLt
    rw [decide_eq_true_eq]
    rintro ⟨_, hlt⟩
    refine h f hf ?_
    have : (2 : ℚ) / 10 ^ 10 * (2 / 10 ^ 10) = 4 / 10 ^ 20 := by norm_num
    rw [← this]
    exact hlt
  exact List.length_eq_zero.1 hlen

lemma selfIntersectIssues_eq_nil {A : GeometryAdapter} {m : Mesh}
    (h : ∀ b : Vec3 × Vec3, A.bounds m = .ok (some b) →
        1 / 10 ^ 6 ≤ b.2.x - b.1.x ∧ 1 / 10 ^ 6 ≤ b.2.y - b.1.y ∧
          1 / 10 ^ 6 ≤ b.2.z - b.1.z) :
    selfIntersectIssues A m = [] := by
  unfold selfIntersectIssues
  cases hb : A.bounds m with
  | error e => rfl
  | ok ob =>
      cases ob with
      | none => rfl
      | some b =>
          obtain ⟨h1, h2, h3⟩ := h b hb
          have hcond : (decide (b.2.x - b.1.x < 1 / 10 ^ 6)
              || decide (b.2.y - b.1.y < 1 / 10 ^ 6)
              || decide (b.2.z - b.1.z < 1 / 10 ^ 6)) = false := by
            rw [Bool.or_eq_false_iff, Bool.or_eq_false_iff]
            exact ⟨⟨decide_eq_false (not_lt.2 h1), decide_eq_false (not_lt.2 h2)⟩,
              decide_eq_false (not_lt.2 h3)⟩
          simp [hcond]
          exact ⟨⟨by simpa using h1, by simpa using h2⟩, by simpa using h3⟩

lemma selfIntersectIssues_of_bounds_error {A : GeometryAdapter} {m : Mesh}
    {e : String} (h : A.bounds m = .error e) : selfIntersectIssues A m = [] := by
  unfold selfIntersectIssues
  rw [h]

lemma detect_thin_walls_of_sample_error {sample : SampleFn} {t : ℚ} {m : Mesh}
    {e : String} (h : sample m 1000 = .error e) : detect_thin_walls sample t m = [] := by
  unfold detect_thin_walls
  rw [h]

/-- C1 (counterexample): the decision is not BLOCK for every non-empty
errors list.  _determine_decision tests severity, not emptiness: an
errors list holding one issue whose severity field is "warning" (a value
the ValidationIssue model admits) yields ALLOW, not BLOCK. -/
theorem determine_decision_nonempty_errors_cex :
    determine_decision
        [{ code := ErrorCode.NOT_WATERTIGHT, message := "open boundary",
           severity := "warning" }] []
      = ValidationStatus.ALLOW
    ∧ ([{ code := ErrorCode.NOT_WATERTIGHT, message := "open boundary",
          severity := "warning" }] : List ValidationIssue) ≠ [] := by
  constructor
  · rfl
  · intro h
    simp at h

/-- C1 (amended): the decision is a pure, order-independent function of
the two issue lists: BLOCK iff the errors list holds an issue of severity
"error"; otherwise ALLOW_WITH_WARNINGS iff the warnings list is
non-empty; otherwise ALLOW.  Because every issue built by the check
engine carries severity "error", BLOCK is equivalent to a non-empty
errors list on every engine-produced pair. -/
theorem determine_decision_severity_rule :
    ∀ (errors warnings : List ValidationIssue),
      (determine_decision errors warnings = ValidationStatus.BLOCK ↔
        ∃ i ∈ errors, i.severity = "error")
      ∧ (determine_decision errors warnings = ValidationStatus.ALLOW_WITH_WARNINGS ↔
          ((∀ i ∈ errors, i.severity ≠ "error") ∧ warnings ≠ []))
      ∧ (determine_decision errors warnings = ValidationStatus.ALLOW ↔
          ((∀ i ∈ errors, i.severity ≠ "error") ∧ warnings = []))
      ∧ (∀ errors2 warnings2, errors.Perm errors2 → warnings.Perm warnings2 →
          determine_decision errors warnings = determine_decision errors2 warnings2)
      ∧ (∀ (A : GeometryAdapter) (sample : SampleFn) (t : ℚ) (m : Mesh),
          run_validation_checks A sample t m = .ok (errors, warnings) →
          (determine_decision errors warnings = ValidationStatus.BLOCK ↔
            errors ≠ [])) := by
  intro errors warnings
  have hany : (errors.any (fun e => e.severity == "error")) = true ↔
      ∃ i ∈ errors, i.severity = "error" := by
    rw [List.any_eq_true]
    constructor
    · rintro ⟨i, hi, hp⟩
      exact ⟨i, hi, by rwa [beq_iff_eq] at hp⟩
    · rintro ⟨i, hi, hp⟩
      exact ⟨i, hi, by rwa [beq_iff_eq]⟩
  have hemp : warnings.isEmpty = true ↔ warnings = [] := by
    cases warnings <;> simp
  have hmain :
      (determine_decision errors warnings = ValidationStatus.BLOCK ↔
        ∃ i ∈ errors, i.severity = "error")
      ∧ (determine_decision errors warnings = ValidationStatus.ALLOW_WITH_WARNINGS ↔
          ((∀ i ∈ errors, i.severity ≠ "error") ∧ warnings ≠ []))
      ∧ (determine_decision errors warnings = ValidationStatus.ALLOW ↔
          ((∀ i ∈ errors, i.severity ≠ "error") ∧ warnings = [])) := by
    unfold determine_decision
    by_cases hb : (errors.any (fun e => e.severity == "error")) = true
    · rw [if_pos hb]
      obtain ⟨i, hi, hsev⟩ := hany.1 hb
      refine ⟨⟨fun _ => ⟨i, hi, hsev⟩, fun _ => rfl⟩, ?_, ?_⟩
      · constructor
        · intro hdec
          exact absurd hdec (by simp)
        · rintro ⟨hall, _⟩
          exact absurd hsev (hall i hi)
      · constructor
        · intro hdec
          exact absurd hdec (by simp)
        · rintro ⟨hall, _⟩
          exact absurd hsev (hall i hi)
    · rw [if_neg hb]
      have hall : ∀ i ∈ errors, i.severity ≠ "error" := by
        intro i hi hcontra
        exact hb (hany.2 ⟨i, hi, hcontra⟩)
      by_cases hw : warnings.isEmpty = true
      · rw [if_pos hw]
        refine ⟨?_, ?_, ?_⟩
        · constructor
          · intro hdec
            exact absurd hdec (by simp)
          · rintro ⟨i, hi, hsev⟩
            exact absurd hsev (hall i hi)
        · constructor
          · intro hdec
            exact absurd hdec (by simp)
          · rintro ⟨_, hne⟩
            exact absurd (hemp.1 hw) hne
        · exact ⟨fun _ => ⟨hall, hemp.1 hw⟩, fun _ => rfl⟩
      · rw [if_neg hw]
        refine ⟨?_, ?_, ?_⟩
        · constructor
          · intro hdec
            exact absurd hdec (by simp)
          · rintro ⟨i, hi, hsev⟩
            exact absurd hsev (hall i hi)
        · refine ⟨fun _ => ⟨hall, fun hnil => hw (hemp.2 hnil)⟩, fun _ => rfl⟩
        · constructor
          · intro hdec
            exact absurd hdec (by simp)
          · rintro ⟨_, hnil⟩
            exact absurd (hemp.2 hnil) hw
  refine ⟨hmain.1, hmain.2.1, hmain.2.2, ?_, ?_⟩
  · intro errors2 warnings2 h1 h2
    unfold determine_decision
    rw [perm_any_eq h1, perm_isEmpty_eq h2]
  · intro A sample t m hrun
    have hsev : ∀ i ∈ errors, i.severity = "error" := by
      intro i hi
      exact checks_severity_eq hrun i (List.mem_append.2 (Or.inl hi))
    rw [hmain.1]
    constructor
    · rintro ⟨i, hi, _⟩ hnil
      rw [hnil] at hi
      simp at hi
    · intro hne
      obtain ⟨i, rest, hcons⟩ := List.exists_cons_of_ne_nil hne
      exact ⟨i, by rw [hcons]; simp, hsev i (by rw [hcons]; simp)⟩

/-- C1 (witness): the amended decision rule applied to concrete
permuted issue lists and to a concrete engine run. -/
theorem determine_decision_severity_rule_witness :
    determine_decision [nonManifoldIssue, selfIntersectIssue] []
      = determine_decision [selfIntersectIssue, nonManifoldIssue] [] :=
  (determine_decision_severity_rule [nonManifoldIssue, selfIntersectIssue] []).2.2.2.1
    [selfIntersectIssue, nonManifoldIssue] [] (List.Perm.swap _ _ _) List.Perm.nil

/-- C2 (confirmed): whenever the load stage fails — a raw read failure,
an empty mesh, or a scene with no geometry — validate_mesh still returns
a well-formed report with zero counts and a zero bounding box, exactly
one DEGENERATE_FACES error carrying the failure message, no warnings and
decision BLOCK.  validate_mesh is a total function, so no exception
escapes it. -/
theorem parse_failure_block_report :
    (∀ (A : GeometryAdapter) (sample : SampleFn) (t : ℚ)
        (raw : Except String LoadedFile) (mid fn : String) (pt : ℚ)
        (ts e : String),
      load_mesh raw = .error e →
      validate_mesh A sample t raw mid fn pt ts =
        { model_id := mid, filename := fn,
          metrics := { triangles := 0, vertices := 0, components := 0,
                       bbox_mm := [0, 0, 0], volume_mm3 := none,
                       surface_area_mm2 := none, units := "mm" },
          errors := [{ code := ErrorCode.DEGENERATE_FACES,
                       message := "Failed to load mesh: " ++ e,
                       severity := "error", count := none, locations := none }],
          warnings := [], decision := ValidationStatus.BLOCK,
          processing_time_ms := pt, timestamp := ts })
    ∧ (∀ msg : String,
        load_mesh (.error msg) = .error ("Failed to load mesh: " ++ msg))
    ∧ (∀ m : Mesh, m.vertices = [] →
        load_mesh (.ok (.single m)) =
          .error "Failed to load mesh: Empty or invalid mesh")
    ∧ load_mesh (.ok (.scene [])) =
        .error "Failed to load mesh: No valid meshes found in scene" := by
  refine ⟨?_, ?_, ?_, rfl⟩
  · intro A sample t raw mid fn pt ts e h
    unfold validate_mesh validate_core
    rw [h]
  · intro msg
    rfl
  · intro m h
    simp [load_mesh, load_inner, h]

/-- C2 (witness): a concrete unreadable input produces the concrete
failure report with the doubly wrapped message. -/
theorem parse_failure_block_report_witness :
    validate_mesh cubeAdapter sEmpty defaultThinWallThreshold
        (.error "garbage") "run-1" "junk.stl" 0 "2026-01-01T00:00:00" =
      { model_id := "run-1", filename := "junk.stl",
        metrics := { triangles := 0, vertices := 0, components := 0,
                     bbox_mm := [0, 0, 0], volume_mm3 := none,
                     surface_area_mm2 := none, units := "mm" },
        errors := [{ code := ErrorCode.DEGENERATE_FACES,
                     message := "Failed to load mesh: Failed to load mesh: garbage",
                     severity := "error", count := none, locations := none }],
        warnings := [], decision := ValidationStatus.BLOCK,
        processing_time_ms := 0, timestamp := "2026-01-01T00:00:00" } :=
  parse_failure_block_report.1 cubeAdapter sEmpty defaultThinWallThreshold
    (.error "garbage") "run-1" "junk.stl" 0 "2026-01-01T00:00:00"
    "Failed to load mesh: garbage" rfl

/-- C6 (confirmed): if any sub-computation of the metrics stage raises,
_compute_metrics returns partial metrics preserving the triangle and
vertex counts of the mesh, with component count 1 and a zeroed bounding
box; being a total function, the stage propagates no exception. -/
theorem metrics_graceful_degradation :
    ∀ (A : GeometryAdapter) (m : Mesh) (e : String),
      compute_metrics_core A m = .error e →
      compute_metrics A m =
        { triangles := m.faces.length, vertices := m.vertices.length,
          components := 1, bbox_mm := [0, 0, 0], volume_mm3 := none,
          surface_area_mm2 := none, units := "mm" } := by
  intro A m e h
  unfold compute_metrics
  rw [h]

/-- C6 (witness): an adapter whose bounds property raises makes the
metrics stage fall back to the partial metrics for the cube. -/
theorem metrics_graceful_degradation_witness :
    compute_metrics boundsFailAdapter cubeMesh =
      { triangles := cubeMesh.faces.length, vertices := cubeMesh.vertices.length,
        components := 1, bbox_mm := [0, 0, 0], volume_mm3 := none,
        surface_area_mm2 := none, units := "mm" } :=
  metrics_graceful_degradation boundsFailAdapter cubeMesh "bounds failed" rfl

/-- C4 (amended): only the self-intersection and thin-wall checks swallow
internal computation failures (contributing zero issues from the failed
check); the watertightness, winding-consistency and component-split
library calls are unguarded, so whenever those three succeed the check
engine completes, and bounds or sampling failures are absorbed. -/
theorem checks_failure_tolerance :
    (∀ (A : GeometryAdapter) (sample : SampleFn) (t : ℚ) (m : Mesh)
        (wt wc : Bool) (k : Nat),
      A.is_watertight m = .ok wt → A.is_winding_consistent m = .ok wc →
      A.split m = .ok k →
      run_validation_checks A sample t m =
        .ok (checksErrors A m wt wc, checksWarnings sample t m k))
    ∧ (∀ (A : GeometryAdapter) (m : Mesh) (e : String),
        A.bounds m = .error e → selfIntersectIssues A m = [])
    ∧ (∀ (sample : SampleFn) (t : ℚ) (m : Mesh) (e : String),
        sample m 1000 = .error e → detect_thin_walls sample t m = []) := by
  refine ⟨?_, ?_, ?_⟩
  · intro A sample t m wt wc k h1 h2 h3
    unfold run_validation_checks
    rw [h1, h2, h3]
  · intro A m e h
    exact selfIntersectIssues_of_bounds_error h
  · intro sample t m e h
    exact detect_thin_walls_of_sample_error h

/-- C4 (counterexample): a failure inside a single check does abort the
run.  With an adapter whose component-split call raises, the check
engine itself fails — the remaining checks never run — and the
orchestrator turns the whole run into a BLOCK failure report, instead of
the multiple-components check contributing zero issues. -/
theorem split_failure_aborts_cex :
    run_validation_checks splitFailAdapter sEmpty defaultThinWallThreshold cubeMesh
      = .error "split failed"
    ∧ (validate_mesh splitFailAdapter sEmpty defaultThinWallThreshold rawCube
        "run-2" "cube.stl" 0 "ts").errors =
      [{ code := ErrorCode.DEGENERATE_FACES,
         message := "Failed to load mesh: split failed", severity := "error",
         count := none, locations := none }]
    ∧ (validate_mesh splitFailAdapter sEmpty defaultThinWallThreshold rawCube
        "run-2" "cube.stl" 0 "ts").decision = ValidationStatus.BLOCK := by
  refine ⟨rfl, rfl, rfl⟩

/-- C4 (witness): with the three unguarded calls succeeding, the engine
completes even though both the bounds property and the sampling call
raise. -/
theorem checks_failure_tolerance_witness :
    run_validation_checks boundsFailAdapter sFail defaultThinWallThreshold cubeMesh
      = .ok (checksErrors boundsFailAdapter cubeMesh true true,
             checksWarnings sFail defaultThinWallThreshold cubeMesh 1) :=
  checks_failure_tolerance.1 boundsFailAdapter sFail defaultThinWallThreshold
    cubeMesh true true 1 rfl rfl rfl

/-- C9 (amended): severity is fixed and not user-configurable, but it is
the same for every check: every issue a validation run emits — through
either list, including the warning-level checks and the failure path —
carries severity "error", the model default, because the validator never
passes a severity. -/
theorem issue_severity_uniform :
    ∀ (A : GeometryAdapter) (sample : SampleFn) (t : ℚ)
      (raw : Except String LoadedFile) (mid fn : String) (pt : ℚ) (ts : String),
      ∀ i ∈ (validate_mesh A sample t raw mid fn pt ts).errors ++
          (validate_mesh A sample t raw mid fn pt ts).warnings,
        i.severity = "error" := by
  intro A sample t raw mid fn pt ts i hi
  unfold validate_mesh validate_core at hi
  cases hld : load_mesh raw with
  | error e =>
      simp only [hld] at hi
      simp at hi
      rw [hi]
  | ok m =>
      simp only [hld] at hi
      cases hrun : run_validation_checks A sample t m with
      | error e =>
          simp only [hrun] at hi
          simp at hi
          rw [hi]
      | ok pair =>
          rcases pair with ⟨e0, w0⟩
          simp only [hrun] at hi
          refine checks_severity_eq hrun i (List.mem_append.2 ?_)
          simpa using hi

/-- C9 (counterexample): a run on a two-component mesh emits its
MULTIPLE_COMPONENTS warning with severity "error", not "warning": the
warning-level checks do not carry a distinct severity. -/
theorem warning_severity_cex :
    (run_validation_checks twoCompAdapter sEmpty defaultThinWallThreshold
        twoCompMesh).map (fun p => p.2.map (fun i => (i.code, i.severity)))
      = .ok [(ErrorCode.MULTIPLE_COMPONENTS, "error")]
    ∧ ("error" : String) ≠ "warning" := by
  exact ⟨by rfl, by decide⟩

/-- C9 (witness): the thin-wall warning of a concrete cube run carries
severity "error". -/
theorem issue_severity_uniform_witness :
    (thinWallIssue sCorner defaultThinWallThreshold cubeMesh).severity = "error" :=
  issue_severity_uniform cubeAdapter sCorner defaultThinWallThreshold rawCube
    "id" "c.stl" 0 "ts" (thinWallIssue sCorner defaultThinWallThreshold cubeMesh)
    (by decide)

lemma issue_opt_ite {c : Prop} [Decidable c] (a : ValidationIssue) :
    (if c then [a] else ([] : List ValidationIssue)) = [] ∨
      (if c then [a] else ([] : List ValidationIssue)) = [a] := by
  by_cases hc : c
  · exact Or.inr (if_pos hc)
  · exact Or.inl (if_neg hc)

lemma issue_opt_ite_nil {c : Prop} [Decidable c] (a : ValidationIssue) :
    (if c then ([] : List ValidationIssue) else [a]) = [] ∨
      (if c then ([] : List ValidationIssue) else [a]) = [a] := by
  by_cases hc : c
  · exact Or.inl (if_pos hc)
  · exact Or.inr (if_neg hc)

lemma selfIntersectIssues_opt (A : GeometryAdapter) (m : Mesh) :
    selfIntersectIssues A m = [] ∨ selfIntersectIssues A m = [selfIntersectIssue] := by
  unfold selfIntersectIssues
  split
  · exact Or.inl rfl
  · exact Or.inl rfl
  · split
    · exact Or.inr rfl
    · exact Or.inl rfl

lemma issue_opt_map {l : List ValidationIssue} {a : ValidationIssue}
    (h : l = [] ∨ l = [a]) :
    l.map (fun i => i.code) = [] ∨ l.map (fun i => i.code) = [a.code] := by
  rcases h with h | h <;> subst h <;> simp

lemma code_opt_sublist {l : List ErrorCode} {x : ErrorCode}
    (h : l = [] ∨ l = [x]) : l.Sublist [x] := by
  rcases h with h | h <;> subst h
  · exact List.nil_sublist _
  · exact List.Sublist.refl _

lemma code_opt_append_sublist {l l2 rest : List ErrorCode} {x : ErrorCode}
    (h : l = [] ∨ l = [x]) (h2 : l2.Sublist rest) :
    (l ++ l2).Sublist (x :: rest) := by
  rcases h with h | h <;> subst h
  · exact (List.nil_append l2) ▸ h2.cons x
  · exact h2.cons₂ x

lemma checksErrors_codes_sublist (A : GeometryAdapter) (m : Mesh) (wt wc : Bool) :
    ((checksErrors A m wt wc).map (fun i => i.code)).Sublist
      [ErrorCode.NOT_WATERTIGHT, ErrorCode.NON_MANIFOLD,
       ErrorCode.SELF_INTERSECTING, ErrorCode.DEGENERATE_FACES] := by
  unfold checksErrors
  rw [List.append_assoc, List.append_assoc, List.map_append, List.map_append,
    List.map_append]
  refine code_opt_append_sublist (issue_opt_map (issue_opt_ite_nil _))
    (code_opt_append_sublist (issue_opt_map (issue_opt_ite_nil _))
      (code_opt_append_sublist (issue_opt_map (selfIntersectIssues_opt A m))
        (code_opt_sublist (issue_opt_map (issue_opt_ite _)))))

lemma checksWarnings_codes_sublist (sample : SampleFn) (t : ℚ) (m : Mesh) (k : Nat) :
    ((checksWarnings sample t m k).map (fun i => i.code)).Sublist
      [ErrorCode.MULTIPLE_COMPONENTS, ErrorCode.DUPLICATE_VERTICES,
       ErrorCode.THIN_WALL] := by
  unfold checksWarnings
  rw [List.append_assoc, List.map_append, List.map_append]
  refine code_opt_append_sublist (issue_opt_map (issue_opt_ite _))
    (code_opt_append_sublist (issue_opt_map (issue_opt_ite _))
      (code_opt_sublist (issue_opt_map (issue_opt_ite _))))

/-- C10 (confirmed): for every run whose input parses, the emitted error
codes follow the fixed engine order NOT_WATERTIGHT, NON_MANIFOLD,
SELF_INTERSECTING, DEGENERATE_FACES and the warning codes the order
MULTIPLE_COMPONENTS, DUPLICATE_VERTICES, THIN_WALL, each code appearing
at most once across both lists; INVERTED_NORMALS is never emitted. -/
theorem issue_code_order_invariant :
    ∀ (A : GeometryAdapter) (sample : SampleFn) (t : ℚ) (m : Mesh)
      (e w : List ValidationIssue),
      run_validation_checks A sample t m = .ok (e, w) →
      ((e.map (fun i => i.code)).Sublist
          [ErrorCode.NOT_WATERTIGHT, ErrorCode.NON_MANIFOLD,
           ErrorCode.SELF_INTERSECTING, ErrorCode.DEGENERATE_FACES])
      ∧ ((w.map (fun i => i.code)).Sublist
          [ErrorCode.MULTIPLE_COMPONENTS, ErrorCode.DUPLICATE_VERTICES,
           ErrorCode.THIN_WALL])
      ∧ ((e ++ w).map (fun i => i.code)).Nodup
      ∧ ErrorCode.INVERTED_NORMALS ∉ (e ++ w).map (fun i => i.code) := by
  intro A sample t m e w h
  obtain ⟨wt, wc, k, _, _, _, he, hw⟩ := (run_checks_ok_iff A sample t m e w).1 h
  subst he
  subst hw
  have h1 := checksErrors_codes_sublist A m wt wc
  have h2 := checksWarnings_codes_sublist sample t m k
  have hs := List.Sublist.append h1 h2
  refine ⟨h1, h2, ?_, ?_⟩
  · rw [List.map_append]
    exact List.Nodup.sublist hs (by decide)
  · rw [List.map_append]
    intro hmem
    have hm2 := hs.subset hmem
    simp at hm2

/-- C10 (witness): the invariant instantiated on a concrete run that
emits one error and one warning. -/
theorem issue_code_order_invariant_witness :
    (([watertightIssue twoCompAdapter twoCompMesh].map (fun i => i.code)).Sublist
        [ErrorCode.NOT_WATERTIGHT, ErrorCode.NON_MANIFOLD,
         ErrorCode.SELF_INTERSECTING, ErrorCode.DEGENERATE_FACES])
    ∧ (([componentsIssue 2].map (fun i => i.code)).Sublist
        [ErrorCode.MULTIPLE_COMPONENTS, ErrorCode.DUPLICATE_VERTICES,
         ErrorCode.THIN_WALL])
    ∧ ((([watertightIssue twoCompAdapter twoCompMesh] ++ [componentsIssue 2]).map
          (fun i => i.code)).Nodup)
    ∧ ErrorCode.INVERTED_NORMALS ∉
        ([watertightIssue twoCompAdapter twoCompMesh] ++ [componentsIssue 2]).map
          (fun i => i.code) :=
  issue_code_order_invariant twoCompAdapter sEmpty defaultThinWallThreshold
    twoCompMesh [watertightIssue twoCompAdapter twoCompMesh] [componentsIssue 2]
    (by rfl)

/-- C7 (confirmed): on every completed run, a DEGENERATE_FACES error is
present in the error list exactly when some triangle has area below
1e-10, where the area is half the magnitude of the cross product of the
two edge vectors taken from the first vertex of the face, and such an
issue always counts the number of those triangles. -/
theorem degenerate_check_characterization :
    ∀ (A : GeometryAdapter) (sample : SampleFn) (t : ℚ) (m : Mesh)
      (e w : List ValidationIssue),
      run_validation_checks A sample t m = .ok (e, w) →
      ((∃ i ∈ e, i.code = ErrorCode.DEGENERATE_FACES) ↔
        ∃ f ∈ m.faces,
          (1 / 2 : ℝ) * Real.sqrt ((faceCrossSq m f : ℚ) : ℝ) < 1 / 10 ^ 10)
      ∧ (∀ i ∈ e, i.code = ErrorCode.DEGENERATE_FACES →
          i.count = some (m.faces.countP (fun f => isDegenerateFace m f))) := by
  intro A sample t m e w h
  obtain ⟨wt, wc, k, _, _, _, he, hw⟩ := (run_checks_ok_iff A sample t m e w).1 h
  subst he
  subst hw
  constructor
  · rw [df_mem_checksErrors_iff, find_degenerate_faces_pos_iff]
    constructor
    · rintro ⟨f, hf, hdeg⟩
      exact ⟨f, hf, (isDegenerateFace_iff_area m f).1 hdeg⟩
    · rintro ⟨f, hf, harea⟩
      exact ⟨f, hf, (isDegenerateFace_iff_area m f).2 harea⟩
  · intro i hi hcode
    rcases checksErrors_mem hi with h1 | h1 | h1 | h1
    · subst h1
      exact absurd hcode (by simp [watertightIssue])
    · subst h1
      exact absurd hcode (by simp [nonManifoldIssue])
    · subst h1
      exact absurd hcode (by simp [selfIntersectIssue])
    · subst h1
      show (degenerateIssue m).count = _
      unfold degenerateIssue
      rw [find_degenerate_faces_length]

/-- C7 (witness): the characterization instantiated on a mesh with one
collinear triangle. -/
theorem degenerate_check_characterization_witness :
    ((∃ i ∈ [degenerateIssue degMesh], i.code = ErrorCode.DEGENERATE_FACES) ↔
      ∃ f ∈ degMesh.faces,
        (1 / 2 : ℝ) * Real.sqrt ((faceCrossSq degMesh f : ℚ) : ℝ) < 1 / 10 ^ 10)
    ∧ (∀ i ∈ [degenerateIssue degMesh], i.code = ErrorCode.DEGENERATE_FACES →
        i.count = some (degMesh.faces.countP (fun f => isDegenerateFace degMesh f))) :=
  degenerate_check_characterization degAdapter sEmpty defaultThinWallThreshold
    degMesh [degenerateIssue degMesh] [] (by rfl)

lemma tw_filter_checksWarnings (sample : SampleFn) (t : ℚ) (m : Mesh) (k : Nat) :
    ((checksWarnings sample t m k).filter
        (fun i => decide (i.code = ErrorCode.THIN_WALL))).length ≤ 1 := by
  unfold checksWarnings
  rw [List.filter_append, List.filter_append, List.length_append, List.length_append]
  have h1 : ((if 1 < k then [componentsIssue k] else ([] : List ValidationIssue)).filter
      (fun i => decide (i.code = ErrorCode.THIN_WALL))).length = 0 := by
    rcases issue_opt_ite (c := 1 < k) (componentsIssue k) with h | h <;> rw [h] <;> rfl
  have h2 : ((if 0 < (find_duplicate_vertices m).length then [duplicatesIssue m]
        else ([] : List ValidationIssue)).filter
      (fun i => decide (i.code = ErrorCode.THIN_WALL))).length = 0 := by
    rcases issue_opt_ite (c := 0 < (find_duplicate_vertices m).length)
        (duplicatesIssue m) with h | h <;> rw [h] <;> rfl
  have h3 : ((if 0 < (detect_thin_walls sample t m).length then [thinWallIssue sample t m]
        else ([] : List ValidationIssue)).filter
      (fun i => decide (i.code = ErrorCode.THIN_WALL))).length ≤ 1 := by
    rcases issue_opt_ite (c := 0 < (detect_thin_walls sample t m).length)
        (thinWallIssue sample t m) with h | h
    · rw [h]
      exact Nat.zero_le 1
    · rw [h]
      exact Nat.le_refl 1
  omega

/-- C8 (confirmed): on every completed run over a parsed mesh whose
sampling call returns a point list, the engine evaluates only the first
10 of the (up to 1000 requested) sampled points; a THIN_WALL warning is
present exactly when some evaluated point has its nearest mesh vertex
closer than the threshold, that warning is unique and counts those
evaluated points, and the count is at most 10.  The final clause ties
the decidable per-point test to the real square-root distance. -/
theorem thin_wall_check_characterization :
    ∀ (A : GeometryAdapter) (sample : SampleFn) (t : ℚ)
      (raw : Except String LoadedFile) (m : Mesh)
      (e w : List ValidationIssue) (pts : List Vec3),
      load_mesh raw = .ok m →
      run_validation_checks A sample t m = .ok (e, w) →
      sample m 1000 = .ok pts →
      ((∃ i ∈ w, i.code = ErrorCode.THIN_WALL) ↔
        ∃ p ∈ pts.take 10, nearPoint m.vertices t p = true)
      ∧ (∀ i ∈ w, i.code = ErrorCode.THIN_WALL →
          i.count = some ((pts.take 10).countP (fun p => nearPoint m.vertices t p)))
      ∧ (pts.take 10).countP (fun p => nearPoint m.vertices t p) ≤ 10
      ∧ ((w.filter (fun i => decide (i.code = ErrorCode.THIN_WALL))).length ≤ 1)
      ∧ (∀ p d, minDistSqTo m.vertices p = some d →
          (nearPoint m.vertices t p = true ↔
            Real.sqrt ((d : ℚ) : ℝ) < ((t : ℚ) : ℝ))) := by
  intro A sample t raw m e w pts hload hrun hs
  have hv := load_mesh_ok_vertices hload
  obtain ⟨wt, wc, k, _, _, _, he, hw⟩ := (run_checks_ok_iff A sample t m e w).1 hrun
  subst he
  subst hw
  have hlen := detect_thin_walls_length (t := t) hv hs
  refine ⟨?_, ?_, ?_, tw_filter_checksWarnings sample t m k, ?_⟩
  · rw [tw_mem_checksWarnings_iff, hlen, List.countP_pos_iff]
  · intro i hi hcode
    rcases checksWarnings_mem hi with h1 | h1 | h1
    · subst h1
      exact absurd hcode (by simp [componentsIssue])
    · subst h1
      exact absurd hcode (by simp [duplicatesIssue])
    · subst h1
      show (thinWallIssue sample t m).count = _
      unfold thinWallIssue
      rw [hlen]
  · refine le_trans (List.countP_le_length _) ?_
    rw [List.length_take]
    exact min_le_left _ _
  · intro p d hd
    unfold nearPoint
    rw [hd]
    exact sqrtLt_iff_real d t

/-- C8 (witness): the characterization instantiated on a cube run whose
sample contains one corner point, which lies at distance 0 from a
vertex. -/
theorem thin_wall_check_characterization_witness :
    ((∃ i ∈ [thinWallIssue sCorner defaultThinWallThreshold cubeMesh],
        i.code = ErrorCode.THIN_WALL) ↔
      ∃ p ∈ ([⟨0, 0, 0⟩] : List Vec3).take 10,
        nearPoint cubeMesh.vertices defaultThinWallThreshold p = true)
    ∧ (∀ i ∈ [thinWallIssue sCorner defaultThinWallThreshold cubeMesh],
        i.code = ErrorCode.THIN_WALL →
        i.count = some ((([⟨0, 0, 0⟩] : List Vec3).take 10).countP
          (fun p => nearPoint cubeMesh.vertices defaultThinWallThreshold p)))
    ∧ (([⟨0, 0, 0⟩] : List Vec3).take 10).countP
        (fun p => nearPoint cubeMesh.vertices defaultThinWallThreshold p) ≤ 10
    ∧ (([thinWallIssue sCorner defaultThinWallThreshold cubeMesh].filter
        (fun i => decide (i.code = ErrorCode.THIN_WALL))).length ≤ 1)
    ∧ (∀ p d, minDistSqTo cubeMesh.vertices p = some d →
        (nearPoint cubeMesh.vertices defaultThinWallThreshold p = true ↔
          Real.sqrt ((d : ℚ) : ℝ) < ((defaultThinWallThreshold : ℚ) : ℝ))) :=
  thin_wall_check_characterization cubeAdapter sCorner defaultThinWallThreshold
    rawCube cubeMesh [] [thinWallIssue sCorner defaultThinWallThreshold cubeMesh]
    [⟨0, 0, 0⟩] (by rfl) (by rfl) (by rfl)

/-- C3 (amended): a parsed watertight, winding-consistent,
single-component mesh with no two distinct vertices within 1e-6, no
triangle of area below 1e-10, a bounding box at least 1e-6 wide on every
axis (otherwise the self-intersection proxy fires) and a thin-wall probe
that reports no regions (otherwise a warning downgrades the decision)
validates with an empty error list, an empty warning list and decision
ALLOW. -/
theorem allow_on_clean_mesh :
    ∀ (A : GeometryAdapter) (sample : SampleFn) (t : ℚ)
      (raw : Except String LoadedFile) (m : Mesh) (mid fn : String)
      (pt : ℚ) (ts : String),
      load_mesh raw = .ok m →
      A.is_watertight m = .ok true →
      A.is_winding_consistent m = .ok true →
      A.split m = .ok 1 →
      (∀ b : Vec3 × Vec3, A.bounds m = .ok (some b) →
        1 / 10 ^ 6 ≤ b.2.x - b.1.x ∧ 1 / 10 ^ 6 ≤ b.2.y - b.1.y ∧
          1 / 10 ^ 6 ≤ b.2.z - b.1.z) →
      (∀ i < m.vertices.length, ∀ j < m.vertices.length, i ≠ j →
        ¬ (distSq (m.vert i) (m.vert j) < 1 / 10 ^ 12)) →
      (∀ f ∈ m.faces, ¬ (faceCrossSq m f < 4 / 10 ^ 20)) →
      detect_thin_walls sample t m = [] →
      (validate_mesh A sample t raw mid fn pt ts).errors = []
      ∧ (validate_mesh A sample t raw mid fn pt ts).warnings = []
      ∧ (validate_mesh A sample t raw mid fn pt ts).decision =
          ValidationStatus.ALLOW := by
  intro A sample t raw m mid fn pt ts hload hwt hwc hk hb hdup hdeg hthin
  have hdup2 := find_duplicate_vertices_eq_nil m
    (fun i j hi hj hij => hdup i hi j hj hij)
  have hdeg2 := find_degenerate_faces_eq_nil m hdeg
  have hsi := selfIntersectIssues_eq_nil hb
  have herr : checksErrors A m true true = [] := by
    unfold checksErrors
    rw [hsi, hdeg2]
    simp
  have hwarn : checksWarnings sample t m 1 = [] := by
    unfold checksWarnings
    rw [hdup2, hthin]
    simp
  have hrun : run_validation_checks A sample t m = .ok ([], []) := by
    unfold run_validation_checks
    simp only [hwt, hwc, hk, herr, hwarn]
  unfold validate_mesh validate_core
  simp only [hload, hrun]
  exact ⟨trivial, trivial, rfl⟩

/-- C3 (counterexample): a genuinely watertight, consistently wound,
single-component sheared box whose distinct vertices are all farther
apart than 1e-6 and whose triangles all have area at least 5e-7 — every
hypothesis of the claim — is nevertheless BLOCKed: its bounding box is
1e-7 thin along z, so the self-intersection proxy emits an error. -/
theorem flat_clean_mesh_blocked_cex :
    flatMesh.validFaces
    ∧ flatAdapter.is_watertight flatMesh = .ok true
    ∧ flatAdapter.is_winding_consistent flatMesh = .ok true
    ∧ flatAdapter.split flatMesh = .ok 1
    ∧ (∀ i < flatMesh.vertices.length, ∀ j < flatMesh.vertices.length, i ≠ j →
        ¬ (distSq (flatMesh.vert i) (flatMesh.vert j) < 1 / 10 ^ 12))
    ∧ (∀ f ∈ flatMesh.faces, ¬ (faceCrossSq flatMesh f < 4 / 10 ^ 20))
    ∧ (validate_mesh flatAdapter sEmpty defaultThinWallThreshold rawFlat
        "run-3" "flat.stl" 0 "ts").errors = [selfIntersectIssue]
    ∧ (validate_mesh flatAdapter sEmpty defaultThinWallThreshold rawFlat
        "run-3" "flat.stl" 0 "ts").decision = ValidationStatus.BLOCK := by
  refine ⟨?_, rfl, rfl, rfl, by decide, by decide, by rfl, by rfl⟩
  unfold Mesh.validFaces
  decide

/-- C3 (witness): the amended statement applied to the cube with a
far-from-vertices sample: every hypothesis holds and the run is
ALLOWed. -/
theorem allow_on_clean_mesh_witness :
    (validate_mesh cubeAdapter sFar defaultThinWallThreshold rawCube
        "run-4" "cube.stl" 0 "ts").errors = []
    ∧ (validate_mesh cubeAdapter sFar defaultThinWallThreshold rawCube
        "run-4" "cube.stl" 0 "ts").warnings = []
    ∧ (validate_mesh cubeAdapter sFar defaultThinWallThreshold rawCube
        "run-4" "cube.stl" 0 "ts").decision = ValidationStatus.ALLOW :=
  allow_on_clean_mesh cubeAdapter sFar defaultThinWallThreshold rawCube cubeMesh
    "run-4" "cube.stl" 0 "ts" (by rfl) rfl rfl rfl
    (by
      intro b hb
      have hb2 : (Except.ok (some ((⟨0, 0, 0⟩ : Vec3), (⟨10, 10, 10⟩ : Vec3))) :
          Except String (Option (Vec3 × Vec3))) = Except.ok (some b) := hb
      injection hb2 with h1
      injection h1 with h2
      subst h2
      exact ⟨by decide, by decide, by decide⟩)
    (by decide) (by decide) (by rfl)

lemma validate_mesh_load_error {A : GeometryAdapter} {sample : SampleFn} {t : ℚ}
    {raw : Except String LoadedFile} {mid fn : String} {pt : ℚ} {ts e : String}
    (h : load_mesh raw = .error e) :
    validate_mesh A sample t raw mid fn pt ts =
      { model_id := mid, filename := fn,
        metrics := { triangles := 0, vertices := 0, components := 0,
                     bbox_mm := [0, 0, 0] },
        errors := [{ code := .DEGENERATE_FACES,
                     message := "Failed to load mesh: " ++ e }],
        warnings := [], decision := .BLOCK,
        processing_time_ms := pt, timestamp := ts } := by
  unfold validate_mesh validate_core
  rw [h]

lemma validate_mesh_checks_error {A : GeometryAdapter} {sample : SampleFn}
    {t : ℚ} {raw : Except String LoadedFile} {m : Mesh} {mid fn : String}
    {pt : ℚ} {ts e : String} (hl : load_mesh raw = .ok m)
    (hr : run_validation_checks A sample t m = .error e) :
    validate_mesh A sample t raw mid fn pt ts =
      { model_id := mid, filename := fn,
        metrics := { triangles := 0, vertices := 0, components := 0,
                     bbox_mm := [0, 0, 0] },
        errors := [{ code := .DEGENERATE_FACES,
                     message := "Failed to load mesh: " ++ e }],
        warnings := [], decision := .BLOCK,
        processing_time_ms := pt, timestamp := ts } := by
  unfold validate_mesh validate_core
  simp only [hl, hr]

lemma validate_mesh_checks_ok {A : GeometryAdapter} {sample : SampleFn}
    {t : ℚ} {raw : Except String LoadedFile} {m : Mesh} {mid fn : String}
    {pt : ℚ} {ts : String} {e w : List ValidationIssue}
    (hl : load_mesh raw = .ok m)
    (hr : run_validation_checks A sample t m = .ok (e, w)) :
    validate_mesh A sample t raw mid fn pt ts =
      { model_id := mid, filename := fn, metrics := compute_metrics A m,
        errors := e, warnings := w, decision := determine_decision e w,
        processing_time_ms := pt, timestamp := ts } := by
  unfold validate_mesh validate_core
  simp only [hl, hr]

/-- C5 (amended): two validation runs over the same bytes share metrics,
errors and all non-THIN_WALL warnings; the thin-wall probe draws its
surface sample from the library random state, so only the THIN_WALL
warning — and with it an ALLOW versus ALLOW_WITH_WARNINGS decision — may
differ between the runs; runs that draw the same sample agree on
warnings and decision as well, differing only in id, timestamp and
elapsed time. -/
theorem idempotence_up_to_sampling :
    ∀ (A : GeometryAdapter) (s1 s2 : SampleFn) (t : ℚ)
      (raw : Except String LoadedFile) (mid1 mid2 fn : String)
      (pt1 pt2 : ℚ) (ts1 ts2 : String),
      (validate_mesh A s1 t raw mid1 fn pt1 ts1).metrics =
        (validate_mesh A s2 t raw mid2 fn pt2 ts2).metrics
      ∧ (validate_mesh A s1 t raw mid1 fn pt1 ts1).errors =
          (validate_mesh A s2 t raw mid2 fn pt2 ts2).errors
      ∧ nonThinWall (validate_mesh A s1 t raw mid1 fn pt1 ts1).warnings =
          nonThinWall (validate_mesh A s2 t raw mid2 fn pt2 ts2).warnings
      ∧ (s1 = s2 →
          (validate_mesh A s1 t raw mid1 fn pt1 ts1).warnings =
            (validate_mesh A s2 t raw mid2 fn pt2 ts2).warnings
          ∧ (validate_mesh A s1 t raw mid1 fn pt1 ts1).decision =
              (validate_mesh A s2 t raw mid2 fn pt2 ts2).decision) := by
  intro A s1 s2 t raw mid1 mid2 fn pt1 pt2 ts1 ts2
  cases hload : load_mesh raw with
  | error e =>
      rw [validate_mesh_load_error hload, validate_mesh_load_error hload]
      exact ⟨rfl, rfl, rfl, fun _ => ⟨rfl, rfl⟩⟩
  | ok m =>
      cases hwt : A.is_watertight m with
      | error e =>
          have hr1 : run_validation_checks A s1 t m = .error e := by
            unfold run_validation_checks
            rw [hwt]
          have hr2 : run_validation_checks A s2 t m = .error e := by
            unfold run_validation_checks
            rw [hwt]
          rw [validate_mesh_checks_error hload hr1,
            validate_mesh_checks_error hload hr2]
          exact ⟨rfl, rfl, rfl, fun _ => ⟨rfl, rfl⟩⟩
      | ok wt =>
          cases hwc : A.is_winding_consistent m with
          | error e =>
              have hr1 : run_validation_checks A s1 t m = .error e := by
                unfold run_validation_checks
                simp only [hwt, hwc]
              have hr2 : run_validation_checks A s2 t m = .error e := by
                unfold run_validation_checks
                simp only [hwt, hwc]
              rw [validate_mesh_checks_error hload hr1,
                validate_mesh_checks_error hload hr2]
              exact ⟨rfl, rfl, rfl, fun _ => ⟨rfl, rfl⟩⟩
          | ok wc =>
              cases hk : A.split m with
              | error e =>
                  have hr1 : run_validation_checks A s1 t m = .error e := by
                    unfold run_validation_checks
                    simp only [hwt, hwc, hk]
                  have hr2 : run_validation_checks A s2 t m = .error e := by
                    unfold run_validation_checks
                    simp only [hwt, hwc, hk]
                  rw [validate_mesh_checks_error hload hr1,
                    validate_mesh_checks_error hload hr2]
                  exact ⟨rfl, rfl, rfl, fun _ => ⟨rfl, rfl⟩⟩
              | ok k =>
                  have hr1 : run_validation_checks A s1 t m =
                      .ok (checksErrors A m wt wc, checksWarnings s1 t m k) := by
                    unfold run_validation_checks
                    simp only [hwt, hwc, hk]
                  have hr2 : run_validation_checks A s2 t m =
                      .ok (checksErrors A m wt wc, checksWarnings s2 t m k) := by
                    unfold run_validation_checks
                    simp only [hwt, hwc, hk]
                  rw [validate_mesh_checks_ok hload hr1,
                    validate_mesh_checks_ok hload hr2]
                  refine ⟨rfl, rfl, ?_, ?_⟩
                  · show nonThinWall (checksWarnings s1 t m k) =
                      nonThinWall (checksWarnings s2 t m k)
                    rw [nonThinWall_checksWarnings, nonThinWall_checksWarnings]
                  · intro hs
                    subst hs
                    exact ⟨rfl, rfl⟩

/-- C5 (counterexample): two runs over byte-identical input whose random
surface samples differ — one sample contains a cube corner, the other a
face centre — give different warning lists and different decisions, so
more than the id and timestamp can change between the runs. -/
theorem sampling_nondeterminism_cex :
    (validate_mesh cubeAdapter sCorner defaultThinWallThreshold rawCube
        "run-5" "cube.stl" 0 "t5").warnings
      ≠ (validate_mesh cubeAdapter sFar defaultThinWallThreshold rawCube
          "run-6" "cube.stl" 0 "t6").warnings
    ∧ (validate_mesh cubeAdapter sCorner defaultThinWallThreshold rawCube
        "run-5" "cube.stl" 0 "t5").decision = ValidationStatus.ALLOW_WITH_WARNINGS
    ∧ (validate_mesh cubeAdapter sFar defaultThinWallThreshold rawCube
        "run-6" "cube.stl" 0 "t6").decision = ValidationStatus.ALLOW
    ∧ (validate_mesh cubeAdapter sCorner defaultThinWallThreshold rawCube
        "run-5" "cube.stl" 0 "t5").errors
      = (validate_mesh cubeAdapter sFar defaultThinWallThreshold rawCube
          "run-6" "cube.stl" 0 "t6").errors := by
  refine ⟨by decide, by rfl, by rfl, by rfl⟩

/-- C5 (witness): two runs drawing the same sample agree on warnings and
decision even with different ids, timestamps and elapsed times. -/
theorem idempotence_up_to_sampling_witness :
    (validate_mesh cubeAdapter sCorner defaultThinWallThreshold rawCube
        "a" "c.stl" 0 "x").warnings
      = (validate_mesh cubeAdapter sCorner defaultThinWallThreshold rawCube
          "b" "c.stl" 1 "y").warnings
    ∧ (validate_mesh cubeAdapter sCorner defaultThinWallThreshold rawCube
        "a" "c.stl" 0 "x").decision
      = (validate_mesh cubeAdapter sCorner defaultThinWallThreshold rawCube
          "b" "c.stl" 1 "y").decision :=
  (idempotence_up_to_sampling cubeAdapter sCorner sCorner defaultThinWallThreshold
    rawCube "a" "b" "c.stl" 0 1 "x" "y").2.2.2 rfl
